import Mathlib

set_option maxRecDepth 100000

/-!
Verification of the basemap-generator batch jobs
(`src/job/create_color-relief/__main__.py` and
`src/job/create_hillshade/__main__.py`).

The two scripts partition the globe into a fixed 10-degree grid, check a
remote object store for already-published tiles, and dispatch one job per
pending tile into a thread pool; each job assembles a DEM mosaic for the
tile, derives an artifact (color relief or hillshade) and uploads it.

The embedding below translates the Python code into Lean: pure pieces
(grid generation, id formatting, id extraction from object keys) become
Lean functions over `Int`/`String`; the effectful per-tile pipeline
becomes a function from an oracle environment (outcomes of the external
catalog/engine/store calls) to an explicit trace of what the job did
(result, published keys, temp-directory bookkeeping).
-/

/-! ### Grid partitioning (`bboxes`, both scripts) -/

/-- Zero padding used by Python string formatting: prepend `'0'` until the
string has length `w`. -/
def padZeros (w : Nat) (s : String) : String :=
  String.mk (List.replicate (w - s.length) '0') ++ s

/-- Python `f"{n:03d}"`: decimal rendering zero-padded to a minimum total
width of 3, where the `-` sign counts toward the width and the padding
zeros are inserted after the sign. -/
def fmt03 (n : Int) : String :=
  if n < 0 then "-" ++ padZeros 2 (toString n.natAbs)
  else padZeros 3 (toString n.natAbs)

/-- The tile id `f"{x:03d}X_{y:03d}Y"` built from the minimum corner. -/
def tileId (x y : Int) : String :=
  fmt03 x ++ "X_" ++ fmt03 y ++ "Y"

/-- One grid cell, as built by the `bboxes` loop in both scripts. -/
structure TileSpec where
  id : String
  min_x : Int
  min_y : Int
  max_x : Int
  max_y : Int
deriving DecidableEq, Repr

/-- The tile appended for loop counters `x = -180 + 10*ix`,
`y = -90 + 10*iy`. -/
def tileAt (ix iy : Nat) : TileSpec :=
  let x : Int := -180 + 10 * ix
  let y : Int := -90 + 10 * iy
  { id := tileId x y
    min_x := x, min_y := y
    max_x := x + 10, max_y := y + 10 }

/-- The global tile list: `for x in range(-180, 180, 10): for y in
range(-90, 90, 10): bboxes.append(...)` (identical in both scripts). -/
def bboxes : List TileSpec :=
  (List.range 36).flatMap fun ix =>
    (List.range 18).map fun iy => tileAt ix iy

/-! ### Completion tracking: Python string splitting and id extraction

`main` in both scripts derives the set of already-done tile ids from the
object-store listing with
`"_".join(path.split(".tif")[0].split("_")[-2:])`.  We model Python's
`str.split` on character lists, with structural recursion so that the
results evaluate inside `decide`. -/

/-- Test whether `pat` is an initial segment of `l`. -/
def leadsWith : List Char → List Char → Bool
  | [], _ => true
  | _ :: _, [] => false
  | a :: as, b :: bs => a == b && leadsWith as bs

/-- The characters of `l` before the first occurrence of `sep`; all of `l`
when `sep` does not occur.  This is Python `s.split(sep)[0]` (for
nonempty `sep`). -/
def takeUntilSub (sep : List Char) : List Char → List Char
  | [] => []
  | c :: rest => if leadsWith sep (c :: rest) then [] else c :: takeUntilSub sep rest

/-- Helper for `splitOnChar`: `acc` holds the current field reversed. -/
def splitOnCharAux (sep : Char) : List Char → List Char → List (List Char)
  | [], acc => [acc.reverse]
  | a :: as, acc =>
    if a == sep then acc.reverse :: splitOnCharAux sep as []
    else splitOnCharAux sep as (a :: acc)

/-- Python `s.split(sep)` for a single-character separator. -/
def splitOnChar (sep : Char) (l : List Char) : List (List Char) :=
  splitOnCharAux sep l []

/-- Python `sep.join(parts)` for a single-character separator. -/
def joinSep (sep : Char) : List (List Char) → List Char
  | [] => []
  | [x] => x
  | x :: xs => x ++ sep :: joinSep sep xs

/-- The id-extraction rule applied to each listed object path, on
character lists: `"_".join(path.split(".tif")[0].split("_")[-2:])`.
Python `l[-2:]` is `l.drop (l.length - 2)`. -/
def extractIdL (l : List Char) : List Char :=
  joinSep '_'
    ((splitOnChar '_' (takeUntilSub ".tif".toList l)).drop
      ((splitOnChar '_' (takeUntilSub ".tif".toList l)).length - 2))

/-- The id-extraction rule on strings. -/
def extractId (path : String) : String :=
  String.mk (extractIdL path.toList)

/-! ### Publisher keys

The upload commands publish to deterministic keys
(`create_color_relief` line 123, `create_hillshade` line 124); `gcloud
storage ls` then lists these full URLs back. -/

/-- Key used by the color-relief upload command. -/
def publishKeyColor (id : String) : String :=
  "gs://gee-ramiqcom-s4g-bucket/basemap/color_relief/NASADEM_Color-Relief_" ++ id ++ ".tif"

/-- Key used by the hillshade upload command. -/
def publishKeyHillshade (id : String) : String :=
  "gs://gee-ramiqcom-s4g-bucket/basemap/hillshade/NASADEM_Hillshade_" ++ id ++ ".tif"

/-! ### Characters of the formatted ids -/

/-- True exactly when the string contains neither `.` nor `_`. -/
def noDotUnderscore (s : String) : Bool :=
  s.toList.all fun c => !(c == '.' || c == '_')

/-! ### Per-tile job pipeline

The effectful pipeline (`get_dem`, `create_color_relief`,
`create_hillshade`) is embedded as a function from an oracle environment
— recording the outcome of each external call (catalog query, engine
subprocesses, upload) — to a trace of what the job did. -/

/-- A tile bounding box as passed to the job functions
(`(min_x, min_y, max_x, max_y)`). -/
structure Bounds where
  min_x : Int
  min_y : Int
  max_x : Int
  max_y : Int
deriving DecidableEq, Repr

/-- Python exceptions raised by the scripts, with the text they carry. -/
inductive Err where
  /-- a plain `Exception(msg)` (the `raise Exception(f"No DEM {id}")`) -/
  | exc (msg : String)
  /-- the `subprocess.CalledProcessError` from `check_call` / `check_output`
  on a non-zero exit status; carries the command line -/
  | calledProcess (cmd : String)
  /-- the `json.JSONDecodeError` (a `ValueError`) from `json.loads` -/
  | valueError (msg : String)
  /-- the `TypeError` from a wrong-arity call -/
  | typeError (msg : String)
deriving DecidableEq, Repr

/-- The `str(e)` text the scheduler loop interpolates into its log line
(quotation marks of the real `CalledProcessError` text omitted). -/
def errMessage : Err → String
  | .exc m => m
  | .calledProcess cmd => "Command " ++ cmd ++ " returned non-zero exit status 1."
  | .valueError m => m
  | .typeError m => m

instance {ε α : Type} [DecidableEq ε] [DecidableEq α] :
    DecidableEq (Except ε α) := fun a b => by
  cases a <;> cases b
  case error.error e1 e2 =>
    exact if h : e1 = e2 then .isTrue (by rw [h]) else .isFalse (by simp [h])
  case error.ok => exact .isFalse (by simp)
  case ok.error => exact .isFalse (by simp)
  case ok.ok a1 a2 =>
    exact if h : a1 = a2 then .isTrue (by rw [h]) else .isFalse (by simp [h])

/-- Failure modes of the catalog query step (the `check_output` of the
catalog command followed by `json.loads`): the subprocess exits non-zero,
or its stdout is not valid JSON of the expected shape. -/
inductive CatalogFailure where
  | proc (cmd : String)
  | badJson (msg : String)
deriving DecidableEq, Repr

/-- The exception the catalog step lets escape from `get_dem`. -/
def CatalogFailure.toErr : CatalogFailure → Err
  | .proc cmd => .calledProcess cmd
  | .badJson m => .valueError m

/-- Oracle for the external calls of one tile job: the catalog query
result (the feature ids of intersecting DEM source tiles, or a failure)
and the exit status of each engine / upload subprocess. -/
structure JobEnv where
  catalog : Except CatalogFailure (List String)
  mosaicOk : Bool
  vrtOk : Bool
  warpOk : Bool
  deriveOk : Bool
  cogOk : Bool
  uploadOk : Bool
deriving DecidableEq, Repr

/-- Model of the name of the job-scoped `TemporaryDirectory`. -/
def jobFolder (id : String) : String := "/tmp/job_" ++ id

/-- The bbox argument text `f"{bounds[0]},{bounds[1]},{bounds[2]},{bounds[3]}"`. -/
def fmtBBox (b : Bounds) : String :=
  toString b.min_x ++ "," ++ toString b.min_y ++ ","
    ++ toString b.max_x ++ "," ++ toString b.max_y

/-- The `gdal raster mosaic` command of the color-relief `get_dem`. -/
def mosaicCmd (bounds : Bounds) (folder_name : String) : String :=
  "gdal raster mosaic --bbox=" ++ fmtBBox bounds
    ++ " --of=COG --co=COMPRESS=ZSTD -i @" ++ folder_name ++ "/paths.txt -o "
    ++ folder_name ++ "/dem.tif"

/-- Function `get_dem` of the color-relief script: query the catalog for DEM
source tiles intersecting `bounds`; when the feature list is non-empty,
write the path list and mosaic the sources into
`{folder_name}/dem.tif`; when it is empty, raise
`Exception(f"No DEM {id}")`. -/
def get_dem (env : JobEnv) (bounds : Bounds) (id : String)
    (folder_name : String) : Except Err String :=
  match env.catalog with
  | .error e => .error e.toErr
  | .ok dem_tiles =>
    if dem_tiles.length > 0 then
      if env.mosaicOk then .ok (folder_name ++ "/dem.tif")
      else .error (.calledProcess (mosaicCmd bounds folder_name))
    else .error (.exc ("No DEM " ++ id))

/-- The `gdalbuildvrt` command of the hillshade `get_dem`. -/
def vrtCmd (folder_name : String) : String :=
  "gdalbuildvrt input_file_list " ++ folder_name ++ "/paths.txt "
    ++ folder_name ++ "/vrt.vrt"

/-- The `gdalwarp` mosaic command of the hillshade `get_dem`. -/
def warpCmd (bounds : Bounds) (folder_name : String) : String :=
  "gdalwarp -t_srs EPSG:4326 -co COMPRESS=ZSTD -te " ++ fmtBBox bounds
    ++ " " ++ folder_name ++ "/vrt.vrt " ++ folder_name ++ "/dem.tif"

/-- Function `get_dem` of the hillshade script: same catalog query and empty-list
behaviour, but the mosaic is built via `gdalbuildvrt` followed by
`gdalwarp`.  Its three parameters have no defaults. -/
def get_dem_hillshade (env : JobEnv) (bounds : Bounds) (id : String)
    (folder_name : String) : Except Err String :=
  match env.catalog with
  | .error e => .error e.toErr
  | .ok dem_tiles =>
    if dem_tiles.length > 0 then
      if env.vrtOk then
        if env.warpOk then .ok (folder_name ++ "/dem.tif")
        else .error (.calledProcess (warpCmd bounds folder_name))
      else .error (.calledProcess (vrtCmd folder_name))
    else .error (.exc ("No DEM " ++ id))

/-- Trace of one tile job: its outcome, the keys it uploaded, and the
temp-directory / catalog bookkeeping needed by the cleanup and
failure-path claims. -/
structure JobTrace where
  result : Except Err Unit
  published : List String
  dirCreated : Bool
  dirRemoved : Bool
  catalogQueried : Bool
deriving DecidableEq, Repr

/-- Model of the process-wide ramp file
`f"{folder.name}/color.txt"` written at import time. -/
def color_file : String := "/tmp/ramp/color.txt"

/-- The `gdal raster color-map` command. -/
def colorMapCmd (dem colored : String) : String :=
  "gdal raster color-map --of=COG --co=COMPRESS=ZSTD --color-map="
    ++ color_file ++ " -i " ++ dem ++ " -o " ++ colored

/-- The `gcloud storage cp` upload command of the color-relief job. -/
def uploadCmdColor (colored : String) (id : String) : String :=
  "gcloud storage cp " ++ colored ++ " " ++ publishKeyColor id

/-- Function `create_color_relief`: create the job temp directory, assemble the
DEM, color-map it, upload it, then (only then) `folder.cleanup()`.  An
exception at any step propagates, skipping every later statement —
including the cleanup, since the directory is created with
`delete=False` and there is no `try`/`finally`. -/
def create_color_relief (env : JobEnv) (bounds : Bounds) (id : String) :
    JobTrace :=
  let folder := jobFolder id
  match get_dem env bounds id folder with
  | .error e =>
    { result := .error e, published := [], dirCreated := true,
      dirRemoved := false, catalogQueried := true }
  | .ok dem =>
    let colored := folder ++ "/colored.tif"
    if env.deriveOk then
      if env.uploadOk then
        { result := .ok (), published := [publishKeyColor id],
          dirCreated := true, dirRemoved := true, catalogQueried := true }
      else
        { result := .error (.calledProcess (uploadCmdColor colored id)),
          published := [], dirCreated := true, dirRemoved := false,
          catalogQueried := true }
    else
      { result := .error (.calledProcess (colorMapCmd dem colored)),
        published := [], dirCreated := true, dirRemoved := false,
        catalogQueried := true }

/-- The `TypeError` Python raises for the two-argument call
`get_dem(bounds, id)` in `create_hillshade`: `get_dem` in that script has
three required parameters (`bounds`, `id`, `folder_name`), so the call
raises before the function body runs.  (The real message quotes the
parameter name; the quotation marks are omitted here.) -/
def getDemTypeError : String :=
  "get_dem() missing 1 required positional argument: folder_name"

/-- Function `create_hillshade`: creates the job temp directory, then evaluates
`dem = get_dem(bounds, id)` — a two-argument call to the three-parameter
`get_dem` — which raises `TypeError` before any catalog query, engine
invocation or upload; every later statement (hillshade, COG re-encode,
upload, cleanup) is skipped. -/
def create_hillshade (_env : JobEnv) (_bounds : Bounds) (_id : String) :
    JobTrace :=
  { result := .error (.typeError getDemTypeError), published := [],
    dirCreated := true, dirRemoved := false, catalogQueried := false }

/-! ### Scheduler (`main` of both scripts) -/

/-- The `done` list computed at the top of `main`:
`check_output("gcloud storage ls ...").split("\n")[:-1]` followed by the
id extraction, the whole block wrapped in `try: ... except Exception:
done = []`.  `listing` is the raw stdout of the listing call, or the
exception it raised. -/
def computeDone (listing : Except Err String) : List String :=
  match listing with
  | .error _ => []
  | .ok raw =>
    ((((splitOnChar '\n' raw.toList).map String.mk).dropLast).map extractId)

/-- The tiles for which `main` submits a task: the loop
`for dict_bounds in bboxes: if name not in done: jobs.append(...)`. -/
def submittedTiles (done : List String) : List TileSpec :=
  bboxes.filter fun t => !done.contains t.id

/-- The bbox tuple `main` passes to the job. -/
def boundsOf (t : TileSpec) : Bounds :=
  { min_x := t.min_x, min_y := t.min_y, max_x := t.max_x, max_y := t.max_y }

/-- The traces of all submitted jobs, for a per-tile oracle `env`.  Jobs
are independent: each runs `job` on its own tile and oracle. -/
def runJobs (job : JobEnv → Bounds → String → JobTrace)
    (env : TileSpec → JobEnv) (done : List String) : List JobTrace :=
  (submittedTiles done).map fun t => job (env t) (boundsOf t) t.id

/-- The `as_completed` loop of `main`: for each submitted job,
`try: job.result() except Exception as e: logger.info(f"Error: {e}")`.
Returns the error log lines; the catch-all `except` means the loop never
re-raises, so the result is `.ok` by the same case analysis the Python
`except Exception` performs. -/
def settleJobs : List JobTrace → Except Err (List String)
  | [] => .ok []
  | tr :: rest =>
    let entry : List String :=
      match tr.result with
      | .ok _ => []
      | .error e => ["Error: " ++ errMessage e]
    match settleJobs rest with
    | .ok logs => .ok (entry ++ logs)
    | .error e => .error e

/-- Outcome of one whole `main` run: the log lines of the settle loop and
the process exit status (`0` when `main` returns normally). -/
structure RunResult where
  logs : List String
  exitCode : Nat
deriving DecidableEq, Repr

/-- Function `main` of the color-relief script, as a function of the per-tile
oracle and the listing-call outcome.  An uncaught exception would
surface as `.error` (and a non-zero process exit). -/
def mainColor (env : TileSpec → JobEnv) (listing : Except Err String) :
    Except Err RunResult :=
  let done := computeDone listing
  match settleJobs (runJobs create_color_relief env done) with
  | .ok logs => .ok { logs := logs, exitCode := 0 }
  | .error e => .error e

/-- Function `main` of the hillshade script. -/
def mainHillshade (env : TileSpec → JobEnv) (listing : Except Err String) :
    Except Err RunResult :=
  let done := computeDone listing
  match settleJobs (runJobs create_hillshade env done) with
  | .ok logs => .ok { logs := logs, exitCode := 0 }
  | .error e => .error e

/-! ### Worker-pool sizes -/

/-- Constant `MAX_WORKERS = os.cpu_count() or 1` (line 11 of the color-relief
script, line 9 of the hillshade script): Python `or` yields the right
operand when the left is `None` or `0`. -/
def MAX_WORKERS (cpu_count : Option Nat) : Nat :=
  match cpu_count with
  | none => 1
  | some n => if n = 0 then 1 else n

/-- The pool size passed to `ThreadPoolExecutor` in the color-relief
`main` (line 143): the literal `8`, independent of the host CPU count. -/
def colorPoolSize (_cpu_count : Option Nat) : Nat := 8

/-- The pool size passed to `ThreadPoolExecutor` in the hillshade `main`
(line 144): `MAX_WORKERS`. -/
def hillshadePoolSize (cpu_count : Option Nat) : Nat :=
  MAX_WORKERS cpu_count

/-! ### Geometry of the grid -/

/-- A point with rational coordinates lies in a tile's closed bbox. -/
def inTile (t : TileSpec) (px py : ℚ) : Prop :=
  (t.min_x : ℚ) ≤ px ∧ px ≤ (t.max_x : ℚ) ∧
  (t.min_y : ℚ) ≤ py ∧ py ≤ (t.max_y : ℚ)

/-- A point lies strictly inside a tile's bbox. -/
def inTileInterior (t : TileSpec) (px py : ℚ) : Prop :=
  (t.min_x : ℚ) < px ∧ px < (t.max_x : ℚ) ∧
  (t.min_y : ℚ) < py ∧ py < (t.max_y : ℚ)

/-! ### Tile-id decoding (for the uniqueness direction of the id claim) -/

/-- Digits-to-number fold (assumes decimal digit characters). -/
def parseNatL (l : List Char) : Nat :=
  l.foldl (fun acc c => acc * 10 + (c.toNat - '0'.toNat)) 0

/-- Signed decimal parse. -/
def parseIntL : List Char → Int
  | '-' :: rest => -(parseNatL rest : Int)
  | l => (parseNatL l : Int)

/-- Decode a tile id `{fmt03 x}X_{fmt03 y}Y` back to its minimum corner:
split at the underscore and strip the trailing axis letters. -/
def decodeId (s : String) : Option (Int × Int) :=
  match splitOnChar '_' s.toList with
  | [xs, ys] => some (parseIntL xs.dropLast, parseIntL ys.dropLast)
  | _ => none

/-! ### The grid has no duplicate tiles -/

/-- Flattened grid index recovered from a tile's minimum corner. -/
def tileKey (t : TileSpec) : Nat :=
  ((t.min_x + 180) / 10).toNat * 18 + ((t.min_y + 90) / 10).toNat

/-! ### The idempotence scenario -/

/-- Oracle under which every external call succeeds and the catalog
returns one source tile. -/
def envAllOk : JobEnv :=
  { catalog := .ok ["source_tile"], mosaicOk := true, vrtOk := true,
    warpOk := true, deriveOk := true, cogOk := true, uploadOk := true }

/-- Raw stdout of `gcloud storage ls`: one key per line, each line
newline-terminated. -/
def gcloudLs : List String → String
  | [] => ""
  | k :: rest => (k ++ "\n") ++ gcloudLs rest

/-- True exactly when the string contains no newline. -/
def noNewline (s : String) : Bool :=
  s.toList.all fun c => !(c == '\n')

/-- Oracle whose catalog query succeeds with an empty feature list and
whose other calls would all succeed. -/
def envNoData : JobEnv :=
  { catalog := .ok [], mosaicOk := true, vrtOk := true,
    warpOk := true, deriveOk := true, cogOk := true, uploadOk := true }

/-- The log line the settle loop emits for one job: `none` on success,
`some ("Error: " ++ str(e))` on failure. -/
def logOf (tr : JobTrace) : Option String :=
  match tr.result with
  | .ok _ => none
  | .error e => some ("Error: " ++ errMessage e)

/-- True exactly when `pat` occurs as a contiguous substring of `s`. -/
def containsSub (s pat : String) : Bool :=
  (List.range (s.toList.length + 1)).any fun i =>
    leadsWith pat.toList (s.toList.drop i)

example : tileId (-180) (-90) = "-180X_-90Y" := by decide
example : tileId 0 80 = "000X_080Y" := by decide
example : bboxes.length = 648 := by decide

example : extractId (publishKeyColor ("-180X_-90Y")) = ("-180X_-90Y") := by decide

/-! ### Lemmas about the split functions -/

theorem leadsWith_append_self (sep rest : List Char) :
    leadsWith sep (sep ++ rest) = true := by
  induction sep with
  | nil => rfl
  | cons a as ih => simp [leadsWith, ih]

theorem leadsWith_cons_ne (s : Char) (sep l : List Char) (c : Char) (h : s ≠ c) :
    leadsWith (s :: sep) (c :: l) = false := by
  simp [leadsWith, h]

theorem takeUntilSub_append_not_mem (s : Char) (sep xs ys : List Char)
    (h : s ∉ xs) :
    takeUntilSub (s :: sep) (xs ++ ys) = xs ++ takeUntilSub (s :: sep) ys := by
  induction xs with
  | nil => rfl
  | cons c cs ih =>
    have hc : s ≠ c := fun e => h (e ▸ List.mem_cons_self c cs)
    have hcs : s ∉ cs := fun e => h (List.mem_cons_of_mem c e)
    simp only [List.cons_append, takeUntilSub, leadsWith_cons_ne s _ _ c hc,
      Bool.false_eq_true, if_false, List.append_eq, ih hcs]

theorem splitOnCharAux_not_mem (sep : Char) (l acc : List Char) (h : sep ∉ l) :
    splitOnCharAux sep l acc = [acc.reverse ++ l] := by
  induction l generalizing acc with
  | nil => simp [splitOnCharAux]
  | cons a as ih =>
    have ha : ¬(a == sep) = true := by
      simp only [beq_iff_eq]
      exact fun e => h (e ▸ List.mem_cons_self a as)
    have has : sep ∉ as := fun e => h (List.mem_cons_of_mem a e)
    simp [splitOnCharAux, ha, ih _ has]

theorem splitOnCharAux_append (sep : Char) (xs ys acc : List Char) :
    splitOnCharAux sep (xs ++ sep :: ys) acc =
      splitOnCharAux sep xs acc ++ splitOnChar sep ys := by
  induction xs generalizing acc with
  | nil => simp [splitOnCharAux, splitOnChar]
  | cons a as ih =>
    by_cases ha : (a == sep) = true
    · simp [splitOnCharAux, ha, ih]
    · simp [splitOnCharAux, ha, ih]

theorem splitOnChar_append (sep : Char) (xs ys : List Char) :
    splitOnChar sep (xs ++ sep :: ys) =
      splitOnChar sep xs ++ splitOnChar sep ys :=
  splitOnCharAux_append sep xs ys []

theorem splitOnChar_not_mem (sep : Char) (l : List Char) (h : sep ∉ l) :
    splitOnChar sep l = [l] :=
  splitOnCharAux_not_mem sep l [] h

/-- Round-trip of the key extraction over the naming rule, at the level of
character lists: for a key `P ++ "_" ++ a ++ "_" ++ b ++ ".tif"` where the
final two underscore-delimited fields `a` and `b` contain no underscore
and the part before `.tif` contains no dot, the extraction recovers
`a ++ "_" ++ b`. -/
theorem extractIdL_key (P a b : List Char)
    (hdot : ('.' : Char) ∉ P ++ '_' :: (a ++ '_' :: b))
    (ha' : '_' ∉ a) (hb' : '_' ∉ b) :
    extractIdL ((P ++ '_' :: (a ++ '_' :: b)) ++ ".tif".toList)
      = a ++ '_' :: b := by
  have htif : (".tif".toList : List Char) = '.' :: 't' :: 'i' :: 'f' :: [] := by
    decide
  have hself :
      takeUntilSub ('.' :: 't' :: 'i' :: 'f' :: [])
        ('.' :: 't' :: 'i' :: 'f' :: []) = [] := by decide
  unfold extractIdL
  rw [htif,
    show ((P ++ '_' :: (a ++ '_' :: b)) ++ '.' :: 't' :: 'i' :: 'f' :: [])
        = (P ++ '_' :: (a ++ '_' :: b)) ++ ('.' :: 't' :: 'i' :: 'f' :: [])
      from rfl,
    takeUntilSub_append_not_mem '.' _ _ _ hdot, hself, List.append_nil,
    splitOnChar_append '_' P (a ++ '_' :: b),
    splitOnChar_append '_' a b,
    splitOnChar_not_mem '_' a ha', splitOnChar_not_mem '_' b hb',
    show splitOnChar '_' P ++ ([a] ++ [b])
        = splitOnChar '_' P ++ [a, b] by simp,
    List.length_append,
    show ([a, b] : List (List Char)).length = 2 from rfl,
    Nat.add_sub_cancel, List.drop_left]
  simp [joinSep]

theorem noDotUnderscore_spec (s : String) (h : noDotUnderscore s = true) :
    ('.' : Char) ∉ s.toList ∧ ('_' : Char) ∉ s.toList := by
  constructor
  · intro hm
    have := List.all_eq_true.mp h _ hm
    simp at this
  · intro hm
    have := List.all_eq_true.mp h _ hm
    simp at this

theorem fmt03_x_clean (ix : Nat) (h : ix < 36) :
    noDotUnderscore (fmt03 (-180 + 10 * (ix : Int))) = true := by
  have hall : ((List.range 36).all fun i =>
      noDotUnderscore (fmt03 (-180 + 10 * (i : Int)))) = true := by decide
  exact List.all_eq_true.mp hall ix (List.mem_range.mpr h)

theorem fmt03_y_clean (iy : Nat) (h : iy < 18) :
    noDotUnderscore (fmt03 (-90 + 10 * (iy : Int))) = true := by
  have hall : ((List.range 18).all fun i =>
      noDotUnderscore (fmt03 (-90 + 10 * (i : Int)))) = true := by decide
  exact List.all_eq_true.mp hall iy (List.mem_range.mpr h)

/-- Membership in the generated grid, unfolded to the loop indices. -/
theorem mem_bboxes {t : TileSpec} :
    t ∈ bboxes ↔ ∃ ix, ix < 36 ∧ ∃ iy, iy < 18 ∧ t = tileAt ix iy := by
  simp only [bboxes, List.mem_flatMap, List.mem_map, List.mem_range]
  constructor
  · rintro ⟨ix, hix, iy, hiy, rfl⟩
    exact ⟨ix, hix, iy, hiy, rfl⟩
  · rintro ⟨ix, hix, iy, hiy, rfl⟩
    exact ⟨ix, hix, iy, hiy, rfl⟩

/-- String-level round trip: if a key decomposes as
`P ++ "_" ++ a ++ "_" ++ b ++ ".tif"` with clean `a`, `b` and dot-free
`P`, the extraction returns the id whose characters are `a ++ "_" ++ b`. -/
theorem extractId_round (P : List Char) (id : String) (a b : List Char)
    (hid : id.toList = a ++ '_' :: b)
    (hP : ('.' : Char) ∉ P)
    (haDot : ('.' : Char) ∉ a) (hbDot : ('.' : Char) ∉ b)
    (haU : ('_' : Char) ∉ a) (hbU : ('_' : Char) ∉ b)
    (key : String)
    (hkey : key.toList = (P ++ '_' :: (a ++ '_' :: b)) ++ ".tif".toList) :
    extractId key = id := by
  have hdot : ('.' : Char) ∉ P ++ '_' :: (a ++ '_' :: b) := by
    intro hmem
    rcases List.mem_append.mp hmem with h | h
    · exact hP h
    · rcases List.mem_cons.mp h with h | h
      · exact absurd h (by decide)
      · rcases List.mem_append.mp h with h | h
        · exact haDot h
        · rcases List.mem_cons.mp h with h | h
          · exact absurd h (by decide)
          · exact hbDot h
  unfold extractId
  rw [hkey, extractIdL_key P a b hdot haU hbU, ← hid]
  rfl

theorem not_mem_append_singleton {c d : Char} {l : List Char}
    (h1 : c ∉ l) (h2 : c ≠ d) : c ∉ l ++ [d] := by
  intro hm
  rcases List.mem_append.mp hm with h | h
  · exact h1 h
  · exact h2 (List.mem_singleton.mp h)

theorem strToList_append (s t : String) :
    (s ++ t).toList = s.toList ++ t.toList := rfl

/-- The characters of a tile id split as
`(fmt03 x ++ "X") ++ "_" ++ (fmt03 y ++ "Y")`. -/
theorem tileId_toList (x y : Int) :
    (tileId x y).toList =
      ((fmt03 x).toList ++ ['X']) ++ '_' :: ((fmt03 y).toList ++ ['Y']) := by
  show (((fmt03 x ++ "X_") ++ fmt03 y) ++ "Y").toList = _
  rw [strToList_append, strToList_append, strToList_append,
    show ("X_" : String).toList = ['X', '_'] from by decide,
    show ("Y" : String).toList = ['Y'] from by decide]
  simp

/-- For every grid tile, the id extraction inverts both publish-key
naming rules (shared helper). -/
theorem extract_both_keys (t : TileSpec) (ht : t ∈ bboxes) :
    extractId (publishKeyColor t.id) = t.id ∧
    extractId (publishKeyHillshade t.id) = t.id := by
  obtain ⟨ix, hix, iy, hiy, rfl⟩ := mem_bboxes.mp ht
  have hidfmt : (tileAt ix iy).id
      = tileId (-180 + 10 * (ix : Int)) (-90 + 10 * (iy : Int)) := rfl
  obtain ⟨haDot, haU⟩ := noDotUnderscore_spec _ (fmt03_x_clean ix hix)
  obtain ⟨hbDot, hbU⟩ := noDotUnderscore_spec _ (fmt03_y_clean iy hiy)
  set x : Int := -180 + 10 * (ix : Int) with hx
  set y : Int := -90 + 10 * (iy : Int) with hy
  have hid := tileId_toList x y
  have haDot' := not_mem_append_singleton haDot (by decide : ('.' : Char) ≠ 'X')
  have haU' := not_mem_append_singleton haU (by decide : ('_' : Char) ≠ 'X')
  have hbDot' := not_mem_append_singleton hbDot (by decide : ('.' : Char) ≠ 'Y')
  have hbU' := not_mem_append_singleton hbU (by decide : ('_' : Char) ≠ 'Y')
  rw [hidfmt]
  constructor
  · apply extractId_round
      "gs://gee-ramiqcom-s4g-bucket/basemap/color_relief/NASADEM_Color-Relief".toList
      (tileId x y) _ _ hid (by decide) haDot' hbDot' haU' hbU'
    show ((("gs://gee-ramiqcom-s4g-bucket/basemap/color_relief/NASADEM_Color-Relief_" :
      String) ++ tileId x y) ++ ".tif").toList = _
    rw [strToList_append, strToList_append,
      show ("gs://gee-ramiqcom-s4g-bucket/basemap/color_relief/NASADEM_Color-Relief_" :
          String).toList =
        ("gs://gee-ramiqcom-s4g-bucket/basemap/color_relief/NASADEM_Color-Relief" :
          String).toList ++ ['_'] from by decide, hid]
    simp
  · apply extractId_round
      "gs://gee-ramiqcom-s4g-bucket/basemap/hillshade/NASADEM_Hillshade".toList
      (tileId x y) _ _ hid (by decide) haDot' hbDot' haU' hbU'
    show ((("gs://gee-ramiqcom-s4g-bucket/basemap/hillshade/NASADEM_Hillshade_" :
      String) ++ tileId x y) ++ ".tif").toList = _
    rw [strToList_append, strToList_append,
      show ("gs://gee-ramiqcom-s4g-bucket/basemap/hillshade/NASADEM_Hillshade_" :
          String).toList =
        ("gs://gee-ramiqcom-s4g-bucket/basemap/hillshade/NASADEM_Hillshade" :
          String).toList ++ ['_'] from by decide, hid]
    simp

/-- C1: applying the completion-check extraction rule (strip `.tif`, take
the trailing two underscore-delimited tokens, rejoin with `_`) to the key
produced by the upload command for a tile of the grid — for either
product kind — returns exactly the tile's id. -/
theorem C1_extraction_inverts_publisher (t : TileSpec) (ht : t ∈ bboxes) :
    extractId (publishKeyColor t.id) = t.id ∧
    extractId (publishKeyHillshade t.id) = t.id :=
  extract_both_keys t ht

/-- Witness for C1 at the first tile of the grid. -/
theorem C1_extraction_inverts_publisher_witness :
    (({ id := "-180X_-90Y", min_x := -180, min_y := -90,
        max_x := -170, max_y := -80 } : TileSpec) ∈ bboxes) ∧
    extractId (publishKeyColor ("-180X_-90Y")) = ("-180X_-90Y") ∧
    extractId (publishKeyHillshade ("-180X_-90Y")) = ("-180X_-90Y") := by
  refine ⟨by decide, ?_⟩
  have h := C1_extraction_inverts_publisher
    { id := "-180X_-90Y", min_x := -180, min_y := -90,
      max_x := -170, max_y := -80 } (by decide)
  exact h

theorem tileAt_fields (ix iy : Nat) :
    (tileAt ix iy).min_x = -180 + 10 * ix ∧
    (tileAt ix iy).max_x = -180 + 10 * ix + 10 ∧
    (tileAt ix iy).min_y = -90 + 10 * iy ∧
    (tileAt ix iy).max_y = -90 + 10 * iy + 10 :=
  ⟨rfl, rfl, rfl, rfl⟩

/-- Any point of a length-`10 * n` segment starting at `lo` lies in one of
the `n` width-10 cells. -/
theorem cell_coverage (n : Nat) :
    ∀ (lo : Int) (q : ℚ), 0 < n → (lo : ℚ) ≤ q → q ≤ (lo : ℚ) + 10 * n →
      ∃ i, i < n ∧ (lo : ℚ) + 10 * i ≤ q ∧ q ≤ (lo : ℚ) + 10 * i + 10 := by
  induction n with
  | zero => intro lo q hn _ _; exact absurd hn (by omega)
  | succ n ih =>
    intro lo q _ h1 h2
    by_cases hq : q ≤ (lo : ℚ) + 10
    · exact ⟨0, Nat.succ_pos n, by simpa using h1, by simpa using hq⟩
    · push_neg at hq
      have hn0 : 0 < n := by
        rcases Nat.eq_zero_or_pos n with h0 | h0
        · subst h0; push_cast at h2; linarith
        · exact h0
      have h1' : ((lo + 10 : Int) : ℚ) ≤ q := by push_cast; linarith
      have h2' : q ≤ ((lo + 10 : Int) : ℚ) + 10 * n := by
        push_cast at h2 ⊢; linarith
      obtain ⟨i, hi, ha, hb⟩ := ih (lo + 10) q hn0 h1' h2'
      refine ⟨i + 1, by omega, ?_, ?_⟩
      · push_cast at ha ⊢; linarith
      · push_cast at hb ⊢; linarith

/-- Two distinct width-10 cells of the same 1-D lattice have disjoint
open interiors. -/
theorem cell_disjoint (lo : Int) (i j : Nat) (hij : i ≠ j) (q : ℚ)
    (h1 : (lo : ℚ) + 10 * i < q) (h2 : q < (lo : ℚ) + 10 * i + 10)
    (h3 : (lo : ℚ) + 10 * j < q) (h4 : q < (lo : ℚ) + 10 * j + 10) :
    False := by
  rcases Nat.lt_or_ge i j with h | h
  · have hc : (i : ℚ) + 1 ≤ (j : ℚ) := by exact_mod_cast Nat.succ_le_of_lt h
    linarith
  · have hj : j < i := by omega
    have hc : (j : ℚ) + 1 ≤ (i : ℚ) := by exact_mod_cast Nat.succ_le_of_lt hj
    linarith

/-- C5: the grid generator produces exactly 648 tiles (36 x 18 cells of
10 degrees); distinct tiles have disjoint interiors; every point of
[-180,180] x [-90,90] lies in some tile; and every tile lies inside that
rectangle. -/
theorem C5_grid_is_partition :
    bboxes.length = 648 ∧
    (∀ t1 ∈ bboxes, ∀ t2 ∈ bboxes, t1 ≠ t2 →
      ∀ px py : ℚ, ¬(inTileInterior t1 px py ∧ inTileInterior t2 px py)) ∧
    (∀ px py : ℚ, -180 ≤ px → px ≤ 180 → -90 ≤ py → py ≤ 90 →
      ∃ t ∈ bboxes, inTile t px py) ∧
    (∀ t ∈ bboxes, ∀ px py : ℚ, inTile t px py →
      -180 ≤ px ∧ px ≤ 180 ∧ -90 ≤ py ∧ py ≤ 90) := by
  refine ⟨by decide, ?_, ?_, ?_⟩
  · rintro t1 ht1 t2 ht2 hne px py ⟨hi1, hi2⟩
    obtain ⟨ix1, hx1, iy1, hy1, rfl⟩ := mem_bboxes.mp ht1
    obtain ⟨ix2, hx2, iy2, hy2, rfl⟩ := mem_bboxes.mp ht2
    obtain ⟨e1, e2, e3, e4⟩ := tileAt_fields ix1 iy1
    obtain ⟨f1, f2, f3, f4⟩ := tileAt_fields ix2 iy2
    obtain ⟨a1, a2, a3, a4⟩ := hi1
    obtain ⟨b1, b2, b3, b4⟩ := hi2
    rw [e1] at a1; rw [e2] at a2; rw [e3] at a3; rw [e4] at a4
    rw [f1] at b1; rw [f2] at b2; rw [f3] at b3; rw [f4] at b4
    by_cases hx : ix1 = ix2
    · have hy : iy1 ≠ iy2 := fun hy => hne (by rw [hx, hy])
      refine cell_disjoint (-90) iy1 iy2 hy py ?_ ?_ ?_ ?_ <;>
        [skip; skip; skip; skip] <;> push_cast at a3 a4 b3 b4 ⊢ <;> linarith
    · refine cell_disjoint (-180) ix1 ix2 hx px ?_ ?_ ?_ ?_ <;>
        [skip; skip; skip; skip] <;> push_cast at a1 a2 b1 b2 ⊢ <;> linarith
  · intro px py hpx1 hpx2 hpy1 hpy2
    obtain ⟨ix, hix, hxa, hxb⟩ := cell_coverage 36 (-180) px (by omega)
      (by push_cast; linarith) (by push_cast; linarith)
    obtain ⟨iy, hiy, hya, hyb⟩ := cell_coverage 18 (-90) py (by omega)
      (by push_cast; linarith) (by push_cast; linarith)
    refine ⟨tileAt ix iy, mem_bboxes.mpr ⟨ix, hix, iy, hiy, rfl⟩, ?_⟩
    obtain ⟨e1, e2, e3, e4⟩ := tileAt_fields ix iy
    refine ⟨?_, ?_, ?_, ?_⟩ <;>
      [rw [e1]; rw [e2]; rw [e3]; rw [e4]] <;> push_cast <;>
      push_cast at hxa hxb hya hyb <;> linarith
  · intro t ht px py hin
    obtain ⟨ix, hix, iy, hiy, rfl⟩ := mem_bboxes.mp ht
    obtain ⟨e1, e2, e3, e4⟩ := tileAt_fields ix iy
    obtain ⟨a1, a2, a3, a4⟩ := hin
    rw [e1] at a1; rw [e2] at a2; rw [e3] at a3; rw [e4] at a4
    push_cast at a1 a2 a3 a4
    have hx36 : (ix : ℚ) ≤ 35 := by exact_mod_cast Nat.lt_succ_iff.mp hix
    have hy18 : (iy : ℚ) ≤ 17 := by exact_mod_cast Nat.lt_succ_iff.mp hiy
    have hx0 : (0 : ℚ) ≤ (ix : ℚ) := by positivity
    have hy0 : (0 : ℚ) ≤ (iy : ℚ) := by positivity
    refine ⟨by linarith, by linarith, by linarith, by linarith⟩

/-- Witness for C5: the point (0,0) is covered; tiles (0,0) and (1,0) of
the grid have disjoint interiors at the sample point (5,5). -/
theorem C5_grid_is_partition_witness :
    (∃ t ∈ bboxes, inTile t 0 0) ∧
    ¬(inTileInterior (tileAt 0 0) (-175) (-85) ∧
      inTileInterior (tileAt 1 0) (-175) (-85)) :=
  ⟨C5_grid_is_partition.2.2.1 0 0 (by norm_num) (by norm_num) (by norm_num)
      (by norm_num),
    C5_grid_is_partition.2.1 (tileAt 0 0) (by decide) (tileAt 1 0) (by decide)
      (by decide) (-175) (-85)⟩

theorem decode_roundtrip :
    (bboxes.all fun t => decodeId t.id == some (t.min_x, t.min_y)) = true := by
  decide

/-- C6 (amended): each tile's id is `f"{min_x:03d}X_{min_y:03d}Y"` where
the zero padding is to a minimum *total* width of 3 with the sign
counting toward the width — so the tile with minimum corner (-180,-90)
has id `"-180X_-90Y"` (not `"-180X_-090Y"`) — and over the grid the id
determines the minimum corner and vice versa. -/
theorem C6_tile_id_encoding :
    (∀ t ∈ bboxes, t.id = tileId t.min_x t.min_y) ∧
    tileId (-180) (-90) = "-180X_-90Y" ∧
    (∀ t1 ∈ bboxes, ∀ t2 ∈ bboxes, t1.id = t2.id → t1 = t2) ∧
    (∀ t1 ∈ bboxes, ∀ t2 ∈ bboxes,
      t1.min_x = t2.min_x → t1.min_y = t2.min_y → t1 = t2) := by
  have hcorner : ∀ t1 ∈ bboxes, ∀ t2 ∈ bboxes,
      t1.min_x = t2.min_x → t1.min_y = t2.min_y → t1 = t2 := by
    intro t1 ht1 t2 ht2 hx hy
    obtain ⟨ix1, hx1, iy1, hy1, rfl⟩ := mem_bboxes.mp ht1
    obtain ⟨ix2, hx2, iy2, hy2, rfl⟩ := mem_bboxes.mp ht2
    obtain ⟨e1, _, e3, _⟩ := tileAt_fields ix1 iy1
    obtain ⟨f1, _, f3, _⟩ := tileAt_fields ix2 iy2
    rw [e1, f1] at hx
    rw [e3, f3] at hy
    have hxx : ix1 = ix2 := by omega
    have hyy : iy1 = iy2 := by omega
    rw [hxx, hyy]
  refine ⟨?_, by decide, ?_, hcorner⟩
  · intro t ht
    obtain ⟨ix, hix, iy, hiy, rfl⟩ := mem_bboxes.mp ht
    rfl
  · intro t1 ht1 t2 ht2 hid
    have h1 : decodeId t1.id = some (t1.min_x, t1.min_y) := by
      have := List.all_eq_true.mp decode_roundtrip t1 ht1
      exact eq_of_beq this
    have h2 : decodeId t2.id = some (t2.min_x, t2.min_y) := by
      have := List.all_eq_true.mp decode_roundtrip t2 ht2
      exact eq_of_beq this
    rw [hid, h2] at h1
    have hx : t2.min_x = t1.min_x := congrArg Prod.fst (Option.some.inj h1)
    have hy : t2.min_y = t1.min_y := congrArg Prod.snd (Option.some.inj h1)
    exact (hcorner t2 ht2 t1 ht1 hx hy).symm

/-- Witness for C6 at two concrete grid tiles. -/
theorem C6_tile_id_encoding_witness :
    (tileAt 0 0).id = tileId (tileAt 0 0).min_x (tileAt 0 0).min_y ∧
    (tileAt 0 0) = (tileAt 0 0) := by
  refine ⟨C6_tile_id_encoding.1 (tileAt 0 0) (by decide), ?_⟩
  exact C6_tile_id_encoding.2.2.1 (tileAt 0 0) (by decide) (tileAt 0 0)
    (by decide) rfl

/-- C6 as stated is false on the code: the tile whose minimum corner is
(-180,-90) is in the grid with id `"-180X_-90Y"`, because Python's
`f"{-90:03d}"` pads to a total width of 3 including the sign; the claim's
expected id `"-180X_-090Y"` differs. -/
theorem C6_counterexample :
    (({ id := "-180X_-90Y", min_x := -180, min_y := -90,
        max_x := -170, max_y := -80 } : TileSpec) ∈ bboxes) ∧
    tileId (-180) (-90) = "-180X_-90Y" ∧
    tileId (-180) (-90) ≠ "-180X_-090Y" := by
  refine ⟨by decide, by decide, by decide⟩

theorem bboxes_keys : bboxes.map tileKey = List.range 648 := by decide

theorem bboxes_nodup : bboxes.Nodup :=
  List.Nodup.of_map tileKey (bboxes_keys ▸ List.nodup_range 648)

theorem ids_noNewline : (bboxes.all fun t => noNewline t.id) = true := by
  decide

theorem noNewline_spec (s : String) (h : noNewline s = true) :
    ('\n' : Char) ∉ s.toList := by
  intro hm
  have := List.all_eq_true.mp h _ hm
  simp at this

theorem not_mem_str_append {c : Char} {s t : String}
    (hs : c ∉ s.toList) (ht : c ∉ t.toList) : c ∉ (s ++ t).toList := by
  rw [strToList_append]
  intro h
  rcases List.mem_append.mp h with h | h
  · exact hs h
  · exact ht h

theorem keyColor_noNewline (t : TileSpec) (ht : t ∈ bboxes) :
    ('\n' : Char) ∉ (publishKeyColor t.id).toList := by
  have hid := noNewline_spec _ (List.all_eq_true.mp ids_noNewline t ht)
  unfold publishKeyColor
  exact not_mem_str_append (not_mem_str_append (by decide) hid) (by decide)

theorem splitOnChar_gcloudLs (keys : List String)
    (h : ∀ k ∈ keys, '\n' ∉ k.toList) :
    splitOnChar '\n' (gcloudLs keys).toList
      = keys.map String.toList ++ [[]] := by
  induction keys with
  | nil => rfl
  | cons k rest ih =>
    have hk : '\n' ∉ k.toList := h k (List.mem_cons_self k rest)
    have hrest : ∀ k ∈ rest, '\n' ∉ k.toList :=
      fun k hm => h k (List.mem_cons_of_mem _ hm)
    show splitOnChar '\n' ((k ++ "\n") ++ gcloudLs rest).toList = _
    rw [strToList_append, strToList_append,
      show ("\n" : String).toList = ['\n'] from rfl]
    rw [show (k.toList ++ ['\n']) ++ (gcloudLs rest).toList
          = k.toList ++ '\n' :: (gcloudLs rest).toList by simp]
    rw [splitOnChar_append '\n' k.toList _, splitOnChar_not_mem '\n' _ hk, ih hrest]
    simp

/-- The `done` list computed from a listing of the given keys is the
extraction image of those keys. -/
theorem computeDone_gcloudLs (keys : List String)
    (h : ∀ k ∈ keys, '\n' ∉ k.toList) :
    computeDone (.ok (gcloudLs keys)) = keys.map extractId := by
  show (((splitOnChar '\n' (gcloudLs keys).toList).map
    String.mk).dropLast).map extractId = keys.map extractId
  rw [splitOnChar_gcloudLs keys h, List.map_append, List.map_map]
  rw [show (List.map String.mk [([] : List Char)]) = [""] from rfl,
    List.dropLast_concat]
  rw [show String.mk ∘ String.toList = fun s : String => s from
    funext fun s => rfl]
  simp

theorem flatMap_singleton_map {α β : Type} (g : α → β) (l : List α) :
    (l.flatMap fun a => [g a]) = l.map g := by
  induction l with
  | nil => rfl
  | cons a as ih => simp [ih]

/-- The published keys of a fully successful color-relief run over an
empty completion set: one key per grid tile. -/
theorem firstRun_published :
    ((runJobs create_color_relief (fun _ => envAllOk) []).flatMap
      fun tr => tr.published) = bboxes.map fun t => publishKeyColor t.id := by
  have h1 : submittedTiles [] = bboxes := by
    simp [submittedTiles]
  unfold runJobs
  rw [h1, List.flatMap_map]
  have h3 : ∀ t : TileSpec,
      (create_color_relief envAllOk (boundsOf t) t.id).published
        = [publishKeyColor t.id] := fun t => rfl
  calc (bboxes.flatMap fun t =>
          (create_color_relief envAllOk (boundsOf t) t.id).published)
      = bboxes.flatMap fun t => [publishKeyColor t.id] :=
        List.flatMap_congr fun t _ => h3 t
      _ = bboxes.map fun t => publishKeyColor t.id :=
        flatMap_singleton_map _ bboxes

/-- C2: the scheduler submits exactly one task for each grid tile whose
id is not in the completion list and none for the others; it produces one
settled trace per submitted tile; a completion list containing every tile
id yields zero submissions; and concretely, a second color-relief run
whose listing holds exactly the keys published by a fully successful
first run dispatches zero jobs. -/
theorem C2_submit_iff_pending_and_idempotent :
    (∀ (done : List String), ∀ t ∈ bboxes,
      (submittedTiles done).count t
        = if done.contains t.id = true then 0 else 1) ∧
    (∀ (job : JobEnv → Bounds → String → JobTrace) (env : TileSpec → JobEnv)
      (done : List String),
      (runJobs job env done).length = (submittedTiles done).length) ∧
    (∀ done : List String, (∀ t ∈ bboxes, t.id ∈ done) →
      submittedTiles done = []) ∧
    submittedTiles (computeDone (.ok (gcloudLs
      ((runJobs create_color_relief (fun _ => envAllOk) []).flatMap
        fun tr => tr.published)))) = [] := by
  refine ⟨?_, ?_, ?_, ?_⟩
  · intro done t ht
    by_cases hc : done.contains t.id = true
    · rw [if_pos hc]
      apply List.count_eq_zero.mpr
      intro hmem
      have hp := (List.mem_filter.mp hmem).2
      rw [hc] at hp
      simp at hp
    · rw [if_neg hc]
      have hfalse : done.contains t.id = false := by
        cases h : done.contains t.id
        · rfl
        · exact absurd h hc
      unfold submittedTiles
      rw [List.count_filter (p := fun t => !done.contains t.id) (a := t)
        (show ((fun t : TileSpec => !done.contains t.id) t) = true from by
          show (!done.contains t.id) = true
          rw [hfalse]
          rfl)]
      exact List.count_eq_one_of_mem bboxes_nodup ht
  · intro job env done
    unfold runJobs
    rw [List.length_map]
  · intro done hall
    apply List.filter_eq_nil_iff.mpr
    intro t ht
    have hm : t.id ∈ done := hall t ht
    simp [hm]
  · rw [firstRun_published]
    have hnl : ∀ k ∈ bboxes.map fun t => publishKeyColor t.id,
        ('\n' : Char) ∉ k.toList := by
      intro k hk
      obtain ⟨t, ht, rfl⟩ := List.mem_map.mp hk
      exact keyColor_noNewline t ht
    rw [computeDone_gcloudLs _ hnl, List.map_map]
    have hext : bboxes.map (extractId ∘ fun t => publishKeyColor t.id)
        = bboxes.map fun t => t.id :=
      List.map_congr_left fun t ht => (extract_both_keys t ht).1
    rw [hext]
    apply List.filter_eq_nil_iff.mpr
    intro t ht
    have hm : t.id ∈ bboxes.map fun t => t.id := List.mem_map.mpr ⟨t, ht, rfl⟩
    simp [hm]

/-- Witness for C2: with an empty completion list, the first grid tile is
submitted exactly once. -/
theorem C2_submit_iff_pending_and_idempotent_witness :
    (submittedTiles []).count (tileAt 0 0)
      = if ([] : List String).contains (tileAt 0 0).id = true then 0 else 1 :=
  C2_submit_iff_pending_and_idempotent.1 [] (tileAt 0 0)
    (mem_bboxes.mpr ⟨0, by omega, 0, by omega, rfl⟩)

/-- C8: if the remote completion-listing call fails with any exception,
the computed completion set is empty — the failure does not propagate —
and consequently every grid tile is treated as pending and submitted. -/
theorem C8_tracking_failure_degrades_to_empty (e : Err) :
    computeDone (.error e) = [] ∧
    submittedTiles (computeDone (.error e)) = bboxes := by
  refine ⟨rfl, ?_⟩
  show submittedTiles [] = bboxes
  simp [submittedTiles]

/-- C9 (amended): the hillshade script's pool size is
`os.cpu_count() or 1` — the CPU count, or 1 when the count is
unavailable or zero — but the color-relief script passes the literal `8`
to its pool regardless of the CPU count (its `MAX_WORKERS` constant is
unused there). -/
theorem C9_pool_sizes :
    (∀ n : Nat, n ≠ 0 → MAX_WORKERS (some n) = n) ∧
    MAX_WORKERS none = 1 ∧
    MAX_WORKERS (some 0) = 1 ∧
    (∀ cpu, hillshadePoolSize cpu = MAX_WORKERS cpu) ∧
    (∀ cpu, colorPoolSize cpu = 8) := by
  refine ⟨?_, rfl, rfl, fun _ => rfl, fun _ => rfl⟩
  intro n hn
  simp [MAX_WORKERS, hn]

/-- Witness for C9: a host with 4 CPUs gives a hillshade pool of 4. -/
theorem C9_pool_sizes_witness : MAX_WORKERS (some 4) = 4 :=
  C9_pool_sizes.1 4 (by decide)

/-- C9 as stated is false: with a host CPU count of 4, the color-relief
script's pool is created with size 8, not 4 (= CPU count, min 1). -/
theorem C9_counterexample :
    colorPoolSize (some 4) = 8 ∧ MAX_WORKERS (some 4) = 4 ∧
    colorPoolSize (some 4) ≠ MAX_WORKERS (some 4) :=
  ⟨rfl, rfl, by decide⟩

/-- C7: `get_dem` fails with the no-source-data exception
`Exception(f"No DEM {id}")` exactly when the catalog query succeeds with
zero intersecting features; such a tile's job then fails and publishes
nothing; and any other tile's job — whose oracle is unchanged — produces
the same trace as before. -/
theorem C7_no_source_data (env : JobEnv) (bounds : Bounds) (id : String)
    (folder : String) :
    (get_dem env bounds id folder = .error (.exc ("No DEM " ++ id))
      ↔ env.catalog = .ok []) ∧
    (env.catalog = .ok [] →
      (create_color_relief env bounds id).result
          = .error (.exc ("No DEM " ++ id)) ∧
      (create_color_relief env bounds id).published = []) ∧
    (∀ (envF envF' : TileSpec → JobEnv) (t0 : TileSpec),
      (∀ t, t ≠ t0 → envF t = envF' t) →
      ∀ (done : List String), ∀ t ∈ submittedTiles done, t ≠ t0 →
        create_color_relief (envF t) (boundsOf t) t.id
          = create_color_relief (envF' t) (boundsOf t) t.id) := by
  refine ⟨⟨?_, ?_⟩, ?_, ?_⟩
  · intro heq
    cases hcat : env.catalog with
    | error e =>
      cases e <;> simp [get_dem, hcat, CatalogFailure.toErr] at heq
    | ok tiles =>
      cases tiles with
      | nil => rfl
      | cons a as =>
        cases hm : env.mosaicOk <;> simp [get_dem, hcat, hm] at heq
  · intro hcat
    simp [get_dem, hcat]
  · intro hcat
    constructor <;> simp [create_color_relief, get_dem, hcat]
  · intro envF envF' t0 hframe done t _ht hne
    rw [hframe t hne]

/-- Witness for C7: with an empty-catalog oracle the DEM step fails with
the no-source-data exception and the tile publishes nothing. -/
theorem C7_no_source_data_witness :
    (get_dem envNoData (boundsOf (tileAt 0 0)) ("-180X_-90Y")
        (jobFolder ("-180X_-90Y")) = .error (.exc ("No DEM " ++ "-180X_-90Y"))) ∧
    (create_color_relief envNoData (boundsOf (tileAt 0 0)) ("-180X_-90Y")).published
      = [] :=
  ⟨(C7_no_source_data envNoData (boundsOf (tileAt 0 0)) ("-180X_-90Y")
      (jobFolder ("-180X_-90Y"))).1.mpr rfl,
    ((C7_no_source_data envNoData (boundsOf (tileAt 0 0)) ("-180X_-90Y")
      (jobFolder ("-180X_-90Y"))).2.1 rfl).2⟩

/-- C3 (amended): each job creates its scoped temp directory, but the
directory is removed only on the fully successful path; on every failure
path (catalog error, no source data, engine error, upload error) the
`delete=False` directory is not removed, and in the hillshade variant the
cleanup is never reached at all. -/
theorem C3_cleanup_only_on_success (env : JobEnv) (bounds : Bounds)
    (id : String) :
    (create_color_relief env bounds id).dirCreated = true ∧
    ((create_color_relief env bounds id).dirRemoved = true
      ↔ (create_color_relief env bounds id).result = .ok ()) ∧
    (create_hillshade env bounds id).dirCreated = true ∧
    (create_hillshade env bounds id).dirRemoved = false := by
  refine ⟨?_, ?_, rfl, rfl⟩ <;>
  · cases hcat : env.catalog with
    | error e => simp [create_color_relief, get_dem, hcat]
    | ok tiles =>
      cases tiles with
      | nil => simp [create_color_relief, get_dem, hcat]
      | cons a as =>
        cases hm : env.mosaicOk <;> cases hd : env.deriveOk <;>
          cases hu : env.uploadOk <;>
          simp [create_color_relief, get_dem, hcat, hm, hd, hu]

/-- C3 as stated is false on the code: on the no-source-data failure path
the job ends with the temp directory still present (`delete=False`, no
`try`/`finally`, cleanup only after the upload). -/
theorem C3_counterexample :
    (create_color_relief envNoData (boundsOf (tileAt 0 0))
        ("-180X_-90Y")).result = .error (.exc ("No DEM -180X_-90Y")) ∧
    (create_color_relief envNoData (boundsOf (tileAt 0 0))
        ("-180X_-90Y")).dirCreated = true ∧
    (create_color_relief envNoData (boundsOf (tileAt 0 0))
        ("-180X_-90Y")).dirRemoved = false :=
  ⟨rfl, rfl, rfl⟩

theorem flatMap_const_nil {α β : Type} (l : List α) :
    (l.flatMap fun _ => ([] : List β)) = [] := by
  induction l with
  | nil => rfl
  | cons a as ih => simp [ih]

/-- C10: every dispatched hillshade job fails with the `TypeError` raised
by the two-argument call `get_dem(bounds, id)` — before any catalog
query, engine invocation or upload — and publishes nothing, so no run of
the hillshade batch ever publishes an artifact. -/
theorem C10_hillshade_jobs_always_fail (env : JobEnv) (bounds : Bounds)
    (id : String) :
    (create_hillshade env bounds id).result
        = .error (.typeError getDemTypeError) ∧
    (create_hillshade env bounds id).catalogQueried = false ∧
    (create_hillshade env bounds id).published = [] ∧
    (∀ (envF : TileSpec → JobEnv) (listing : Except Err String),
      ((runJobs create_hillshade envF (computeDone listing)).flatMap
        fun tr => tr.published) = []) := by
  refine ⟨rfl, rfl, rfl, ?_⟩
  intro envF listing
  unfold runJobs
  rw [List.flatMap_map]
  exact flatMap_const_nil _

/-- The settle loop never re-raises: it returns, in order, one log line
`"Error: " ++ str(e)` per failed job. -/
theorem settleJobs_ok (traces : List JobTrace) :
    settleJobs traces = .ok (traces.filterMap logOf) := by
  induction traces with
  | nil => rfl
  | cons tr rest ih =>
    cases hres : tr.result with
    | ok u => simp [settleJobs, ih, hres, List.filterMap_cons, logOf]
    | error e => simp [settleJobs, ih, hres, List.filterMap_cons, logOf]

/-- C4 (amended): every per-tile error is caught at the task boundary in
the scheduler loop and logged as `Error: {e}` — the exception's own
message, which does not necessarily contain the tile id; sibling tasks
are unaffected by another tile's oracle; no error is fatal to the batch,
and `main` returns normally in both scripts (process exit 0). -/
theorem C4_errors_caught_and_logged (env : TileSpec → JobEnv)
    (listing : Except Err String) :
    (∃ r : RunResult, mainColor env listing = .ok r ∧ r.exitCode = 0) ∧
    (∃ r : RunResult, mainHillshade env listing = .ok r ∧ r.exitCode = 0) ∧
    (∀ t ∈ submittedTiles (computeDone listing), ∀ e : Err,
      (create_color_relief (env t) (boundsOf t) t.id).result = .error e →
      ∀ r : RunResult, mainColor env listing = .ok r →
        ("Error: " ++ errMessage e) ∈ r.logs) ∧
    (∀ (job : JobEnv → Bounds → String → JobTrace)
      (envF envF' : TileSpec → JobEnv) (t0 : TileSpec),
      (∀ t, t ≠ t0 → envF t = envF' t) →
      ∀ (done : List String), ∀ t ∈ submittedTiles done, t ≠ t0 →
        job (envF t) (boundsOf t) t.id = job (envF' t) (boundsOf t) t.id) := by
  have hmc : mainColor env listing
      = .ok (RunResult.mk
          ((runJobs create_color_relief env
            (computeDone listing)).filterMap logOf) 0) := by
    show (match settleJobs (runJobs create_color_relief env
        (computeDone listing)) with
      | .ok logs => Except.ok ({ logs := logs, exitCode := 0 } : RunResult)
      | .error e => Except.error e) = _
    rw [settleJobs_ok]
  have hmh : mainHillshade env listing
      = .ok (RunResult.mk
          ((runJobs create_hillshade env
            (computeDone listing)).filterMap logOf) 0) := by
    show (match settleJobs (runJobs create_hillshade env
        (computeDone listing)) with
      | .ok logs => Except.ok ({ logs := logs, exitCode := 0 } : RunResult)
      | .error e => Except.error e) = _
    rw [settleJobs_ok]
  refine ⟨⟨_, hmc, rfl⟩, ⟨_, hmh, rfl⟩, ?_, ?_⟩
  · intro t ht e hres r hr
    rw [hmc] at hr
    cases hr
    apply List.mem_filterMap.mpr
    refine ⟨create_color_relief (env t) (boundsOf t) t.id, ?_, ?_⟩
    · exact List.mem_map.mpr ⟨t, ht, rfl⟩
    · rw [logOf, hres]
  · intro job envF envF' t0 hframe done t _ht hne
    rw [hframe t hne]

/-- Witness for C4: with an unreachable store and empty-catalog oracles,
the color-relief `main` still returns normally with exit status 0 and
logs the first tile's no-source-data error. -/
theorem C4_errors_caught_and_logged_witness :
    ∃ r : RunResult,
      mainColor (fun _ => envNoData) (.error (.exc ("store unreachable"))) = .ok r
      ∧ r.exitCode = 0
      ∧ ("Error: " ++ errMessage (.exc ("No DEM " ++ (tileAt 0 0).id))) ∈ r.logs := by
  obtain ⟨r, hr, hexit⟩ :=
    (C4_errors_caught_and_logged (fun _ => envNoData)
      (.error (.exc ("store unreachable")))).1
  refine ⟨r, hr, hexit, ?_⟩
  exact (C4_errors_caught_and_logged (fun _ => envNoData)
      (.error (.exc ("store unreachable")))).2.2.1 (tileAt 0 0) (by decide)
    (.exc ("No DEM " ++ (tileAt 0 0).id)) rfl r hr

/-- C4 as stated is false in one respect: the scheduler's log line is
`f"Error: {e}"` with no tile id attached, and for the hillshade variant's
`TypeError` the resulting message does not contain the failing tile's id
at all. -/
theorem C4_counterexample :
    (create_hillshade envAllOk (boundsOf (tileAt 0 0)) (tileAt 0 0).id).result
      = .error (.typeError getDemTypeError) ∧
    "Error: " ++ errMessage (.typeError getDemTypeError)
      = "Error: get_dem() missing 1 required positional argument: folder_name" ∧
    containsSub ("Error: " ++ errMessage (.typeError getDemTypeError))
      (tileAt 0 0).id = false :=
  ⟨rfl, rfl, by decide⟩
